import Mathlib

/-!
# TitleQuest launcher

A shallow embedding of `titlequest.go`: the single HTTP handler `handlerFunc`
and the start-up sequence `main`.

* The handler is a function on an explicit response-writer state (the header
  map, the header snapshot taken by the first write, the status and the body).
* `main` is a function from the behaviour of the operating system (does the
  bind succeed, does the spawn succeed) to the sequence of effects performed
  and the way the main task ends.
-/

set_option autoImplicit false

namespace TitleQuest

/-! ## Bytes and strings -/

/-- Byte of a Go byte slice or of a Go string. -/
abbrev Byte := Fin 256

/-- Go string: an immutable sequence of bytes, not necessarily valid UTF-8. -/
abbrev GoString := List Byte

/-- The conversion `string(b)` of a byte slice: a copy of the same bytes. -/
def stringOfBytes (b : List Byte) : GoString := b

/-! ## The response writer -/

/-- Header map of `net/http`: canonical key to the list of its values. -/
abbrev Header := List (String × List String)

/-- Values stored under `key`, the empty list when the key is absent. -/
def Header.Values (h : Header) (key : String) : List String :=
  match h with
  | [] => []
  | (k, vs) :: rest => if k = key then vs else Header.Values rest key

/-- The method `Header.Add`: appends `value` to the values of `key`. The key
`Content-Type` used by the handler is already in canonical MIME form, so the
canonicalisation done by the library leaves it unchanged. -/
def Header.Add (h : Header) (key value : String) : Header :=
  match h with
  | [] => [(key, [value])]
  | (k, vs) :: rest =>
    if k = key then (k, vs ++ [value]) :: rest
    else (k, vs) :: Header.Add rest key value

/-- State of an `http.ResponseWriter`. -/
structure ResponseWriter where
  /-- The map handed out by `Header()`. -/
  header : Header
  /-- Has the status line (and with it the header) been committed? -/
  wroteHeader : Bool
  /-- Status code committed by `WriteHeader`; 0 while none is committed. -/
  status : Nat
  /-- Snapshot of the header map sent with the status line. -/
  sentHeader : Header
  /-- Body bytes written so far, in order. -/
  body : List Byte
  /-- Number of calls of `Write` so far. -/
  writeCalls : Nat

/-- Response writer of a request that has not been answered yet. -/
def ResponseWriter.fresh : ResponseWriter :=
  { header := [], wroteHeader := false, status := 0, sentHeader := [], body := [],
    writeCalls := 0 }

/-- The method `WriteHeader`: the first call commits the status code together
with the header map as it stands; later calls change nothing. -/
def ResponseWriter.WriteHeader (w : ResponseWriter) (code : Nat) : ResponseWriter :=
  if w.wroteHeader then w
  else { w with wroteHeader := true, status := code, sentHeader := w.header }

/-- The method `Write`: commits status 200 first when no status has been
committed, then appends the data to the body. -/
def ResponseWriter.Write (w : ResponseWriter) (data : List Byte) : ResponseWriter :=
  let w1 := if w.wroteHeader then w else w.WriteHeader 200
  { w1 with body := w1.body ++ data, writeCalls := w1.writeCalls + 1 }

/-! ## Printing with `fmt.Fprint` -/

/-- Operand of `fmt.Fprint`: a string, or a value of another kind together
with its default rendering. -/
inductive Operand where
  | str (s : GoString)
  | other (rendered : GoString)

/-- Is the operand of kind string? -/
def Operand.isString : Operand → Bool
  | .str _ => true
  | .other _ => false

/-- Bytes printed for one operand under the verb `%v`: a string is printed as
its bytes, without quoting and without re-encoding. -/
def Operand.printArg : Operand → GoString
  | .str s => s
  | .other r => r

/-- The loop of `doPrint`: a space goes between two operands when neither is a
string. -/
def doPrintLoop (prevString : Bool) (argNum : Nat) (buf : GoString) :
    List Operand → GoString
  | [] => buf
  | arg :: rest =>
    let isString := arg.isString
    let buf1 := if 0 < argNum && !isString && !prevString then buf ++ [(32 : Byte)] else buf
    doPrintLoop isString (argNum + 1) (buf1 ++ arg.printArg) rest

/-- The formatted output of `fmt.Fprint` for the operands `a`. -/
def doPrint (a : List Operand) : GoString :=
  doPrintLoop false 0 [] a

/-- The function `fmt.Fprint`: formats the operands into a buffer and hands
the buffer to the writer in one call of `Write`. -/
def Fprint (w : ResponseWriter) (a : List Operand) : ResponseWriter :=
  w.Write (doPrint a)

/-! ## The handler -/

/-- An HTTP request as the handler receives it. -/
structure Request where
  method : String
  requestURI : String
  proto : String
  header : Header
  body : List Byte

/-- The handler `handlerFunc`, with the embedded payload `indexDotHtml` as a
parameter. -/
def handlerFunc (indexDotHtml : List Byte) (w : ResponseWriter) (_r : Request) :
    ResponseWriter :=
  let w1 := { w with header := Header.Add w.header "Content-Type" "text/html; charset=utf-8" }
  Fprint w1 [Operand.str (stringOfBytes indexDotHtml)]

/-! ## The start-up sequence -/

/-- An error value returned by the operating system interface. -/
structure Error where
  msg : String
  deriving DecidableEq

/-- Handle of a bound listener. -/
structure Listener where
  fd : Nat
  deriving DecidableEq

/-- The structure `exec.Cmd`: the program to run, its argument vector, and
the error that `exec.Command` found while resolving the program. -/
structure Cmd where
  path : String
  args : List String
  err : Option Error
  deriving DecidableEq

/-- The test `filepath.Base(name) == name` of `exec.Command`, on names without
a volume: it holds of a name that is not empty and has no path separator. -/
def isBareName (name : String) : Bool :=
  !name.data.isEmpty && name.data.all (fun ch => ch != Char.ofNat 47 && ch != Char.ofNat 92)

/-- The function `exec.Command`, with the search `exec.LookPath` of the host
as a parameter. The argument vector starts with the name. A bare name is
looked up: a non-empty result replaces the path, and an error of the search is
kept in the command for `Start` to return. -/
def Command (lookPath : String → String × Option Error) (name : String)
    (arg : List String) : Cmd :=
  let cmd : Cmd := { path := name, args := name :: arg, err := none }
  if isBareName name then
    let found := lookPath name
    let cmd1 : Cmd := if found.1 = "" then cmd else { cmd with path := found.1 }
    match found.2 with
    | some e => { cmd1 with err := some e }
    | none => cmd1
  else cmd

/-- The structure `http.Server`, reduced to the one field `main` sets. -/
structure Server where
  Handler : ResponseWriter → Request → ResponseWriter

/-- Behaviour of the operating system in one run. -/
structure World where
  /-- Result of `net.Listen network address`. -/
  Listen : String → String → Except Error Listener
  /-- Result of `exec.LookPath name`: the path found and the error, if any. -/
  LookPath : String → String × Option Error
  /-- Result of `Start` on a command: `none` stands for a nil error. -/
  Start : Cmd → Option Error
  /-- Status with which a spawned command exits later on. -/
  childExit : Cmd → Nat

/-- Effects of the main task that are visible outside the process. -/
inductive Effect where
  /-- Text written to standard output. -/
  | stdout (s : String)
  /-- A call of `net.Listen` with its result. -/
  | listen (network address : String) (res : Except Error Listener)
  /-- The statement `go s.Serve(l)`. -/
  | goServe (s : Server) (l : Listener)
  /-- A call of `Start` on a command with its result. -/
  | start (c : Cmd) (err : Option Error)
  /-- A call of `Wait` on a command. -/
  | wait (c : Cmd)

/-- Is the effect a call of `net.Listen`? -/
def Effect.isListen : Effect → Bool
  | .listen _ _ _ => true
  | _ => false

/-- Is the effect the start of the serve loop? -/
def Effect.isServe : Effect → Bool
  | .goServe _ _ => true
  | _ => false

/-- Is the effect a call of `Start`? -/
def Effect.isStart : Effect → Bool
  | .start _ _ => true
  | _ => false

/-- Is the effect a call of `Wait`? -/
def Effect.isWait : Effect → Bool
  | .wait _ => true
  | _ => false

/-- Position of an effect in the start-up order. -/
def Effect.rank : Effect → Nat
  | .stdout _ => 0
  | .listen _ _ _ => 1
  | .goServe _ _ => 2
  | .start _ _ => 3
  | .wait _ => 4

/-- The function `fmt.Println` on one string operand: the operand followed
by a newline goes to standard output. -/
def Println (s : String) : Effect :=
  Effect.stdout (s ++ "\n")

/-- How the main task ends. -/
inductive Outcome where
  /-- The call `panic(err)`: the process aborts with the error. -/
  | panicked (e : Error)
  /-- The statement `select {}`: the main task blocks for ever. -/
  | parked
  /-- The function `main` returns. -/
  | returned
  deriving DecidableEq

/-- Is the outcome a fatal exit? -/
def Outcome.isFatal : Outcome → Bool
  | .panicked _ => true
  | _ => false

/-- Exit status that the program itself produces: 2 for an unrecovered panic,
0 for a return from `main`, none while the main task is parked. -/
def Outcome.exitCode : Outcome → Option Nat
  | .panicked _ => some 2
  | .parked => none
  | .returned => some 0

/-- One run of the main task: the effects in order, and how the task ends. -/
structure Run where
  trace : List Effect
  outcome : Outcome

/-- The banner, the raw string literal passed to `fmt.Println`. -/
def banner : String :=
  "\n _____ _ _   _        ____                 _   \n" ++
  "/__   (_) |_| | ___  /___ \\_   _  ___  ___| |_ \n" ++
  "  / /\\/ | __| |/ _ \\//  / / | | |/ _ \\/ __| __|\n" ++
  " / /  | | |_| |  __/ \\_/ /| |_| |  __/\\__ \\ |_ \n" ++
  " \\/   |_|\\__|_|\\___\\___,_\\ \\__,_|\\___||___/\\__|\n" ++
  "\n" ++
  "Ctrl+C or close this window to exit..."

/-- The command that hands the URL to the default browser, as `exec.Command`
builds it on the host `os`. -/
def urlOpener (os : World) : Cmd :=
  Command os.LookPath "rundll32" ["url.dll,FileProtocolHandler", "http://localhost:8080"]

/-- The function `main`, with the embedded payload and the behaviour of the
operating system as parameters. -/
def main (indexDotHtml : List Byte) (os : World) : Run :=
  let t0 := [Println banner]
  let res := os.Listen "tcp" "localhost:8080"
  let t1 := t0 ++ [Effect.listen "tcp" "localhost:8080" res]
  match res with
  | .error err => { trace := t1, outcome := .panicked err }
  | .ok l =>
    let s : Server := { Handler := handlerFunc indexDotHtml }
    let t2 := t1 ++ [Effect.goServe s l]
    let err := os.Start (urlOpener os)
    let t3 := t2 ++ [Effect.start (urlOpener os) err]
    match err with
    | some e => { trace := t3, outcome := .panicked e }
    | none => { trace := t3, outcome := .parked }

/-! ## Sample behaviours of the operating system -/

/-- Port 8080 is taken: the bind fails. -/
def osPortTaken : World :=
  { Listen := fun _ _ => .error ⟨"bind: address already in use"⟩,
    LookPath := fun _ => ("C:\\Windows\\system32\\rundll32.exe", none),
    Start := fun _ => none,
    childExit := fun _ => 0 }

/-- The bind succeeds, the URL-opener is not found. -/
def osNoOpener : World :=
  { Listen := fun _ _ => .ok ⟨3⟩,
    LookPath := fun _ => ("", some ⟨"executable file not found"⟩),
    Start := fun c => c.err,
    childExit := fun _ => 0 }

/-- The bind and the spawn succeed, the spawned command exits with status 0. -/
def osAllFine : World :=
  { Listen := fun _ _ => .ok ⟨3⟩,
    LookPath := fun _ => ("C:\\Windows\\system32\\rundll32.exe", none),
    Start := fun _ => none,
    childExit := fun _ => 0 }

/-- The bind and the spawn succeed, the spawned command exits with status 1. -/
def osOpenerExitsOne : World :=
  { Listen := fun _ _ => .ok ⟨3⟩,
    LookPath := fun _ => ("C:\\Windows\\system32\\rundll32.exe", none),
    Start := fun _ => none,
    childExit := fun _ => 1 }

/-- A sample payload with a byte that is not valid UTF-8. -/
def samplePayload : List Byte := [60, 255, 62]

/-! ## Lemmas on the response writer -/

theorem doPrint_single_str (s : GoString) : doPrint [Operand.str s] = s := by
  simp [doPrint, doPrintLoop, Operand.printArg]

theorem Write_body (w : ResponseWriter) (data : List Byte) :
    (w.Write data).body = w.body ++ data := by
  cases h : w.wroteHeader <;> simp [ResponseWriter.Write, ResponseWriter.WriteHeader, h]

theorem Write_of_not_wroteHeader (w : ResponseWriter) (data : List Byte)
    (h : w.wroteHeader = false) :
    w.Write data =
      { header := w.header, wroteHeader := true, status := 200, sentHeader := w.header,
        body := w.body ++ data, writeCalls := w.writeCalls + 1 } := by
  simp [ResponseWriter.Write, ResponseWriter.WriteHeader, h]

theorem handlerFunc_eq (indexDotHtml : List Byte) (w : ResponseWriter) (r : Request) :
    handlerFunc indexDotHtml w r =
      ({ w with header := Header.Add w.header "Content-Type" "text/html; charset=utf-8" }
        : ResponseWriter).Write indexDotHtml := by
  simp [handlerFunc, Fprint, doPrint_single_str, stringOfBytes]

theorem handlerFunc_fresh (indexDotHtml : List Byte) (r : Request) :
    handlerFunc indexDotHtml ResponseWriter.fresh r =
      { header := [("Content-Type", ["text/html; charset=utf-8"])], wroteHeader := true,
        status := 200, sentHeader := [("Content-Type", ["text/html; charset=utf-8"])],
        body := indexDotHtml, writeCalls := 1 } := by
  rw [handlerFunc_eq, Write_of_not_wroteHeader _ _ rfl]
  simp [ResponseWriter.fresh, Header.Add]

/-! ## The handler: claims C1 to C3 -/

/-- C1: for every payload and every request, the body that `handlerFunc`
leaves on a fresh response writer is exactly the payload, byte for byte; it is
written in a single call of `Write`, and on any response writer the handler
appends exactly the payload to the body that is already there. -/
theorem handlerFunc_body_is_payload (indexDotHtml : List Byte) (r : Request) :
    (handlerFunc indexDotHtml ResponseWriter.fresh r).body = indexDotHtml ∧
    (handlerFunc indexDotHtml ResponseWriter.fresh r).writeCalls = 1 ∧
    ∀ w : ResponseWriter, (handlerFunc indexDotHtml w r).body = w.body ++ indexDotHtml := by
  refine ⟨?_, ?_, ?_⟩
  · rw [handlerFunc_fresh]
  · rw [handlerFunc_fresh]
  · intro w
    rw [handlerFunc_eq, Write_body]

/-- C2: for every request, after `handlerFunc` has run on a fresh response
writer the header map holds `Content-Type` with the single value
`text/html; charset=utf-8`, and the header committed together with the status
line (before the first body byte) already holds that same single value. -/
theorem handlerFunc_content_type (indexDotHtml : List Byte) (r : Request) :
    Header.Values (handlerFunc indexDotHtml ResponseWriter.fresh r).header "Content-Type"
      = ["text/html; charset=utf-8"] ∧
    (handlerFunc indexDotHtml ResponseWriter.fresh r).wroteHeader = true ∧
    Header.Values (handlerFunc indexDotHtml ResponseWriter.fresh r).sentHeader "Content-Type"
      = ["text/html; charset=utf-8"] ∧
    (handlerFunc indexDotHtml ResponseWriter.fresh r).sentHeader
      = [("Content-Type", ["text/html; charset=utf-8"])] := by
  rw [handlerFunc_fresh]
  simp [Header.Values]

/-- C3: the response does not depend on the request: on equal response
writers and the same payload two requests leave the same response writer
(status, headers, body and number of writes), and on a fresh response writer
the status is 200. -/
theorem handlerFunc_ignores_request (indexDotHtml : List Byte) (w : ResponseWriter)
    (r1 r2 : Request) :
    handlerFunc indexDotHtml w r1 = handlerFunc indexDotHtml w r2 ∧
    (handlerFunc indexDotHtml ResponseWriter.fresh r1).status = 200 ∧
    (handlerFunc indexDotHtml ResponseWriter.fresh r2).status = 200 := by
  refine ⟨?_, ?_, ?_⟩
  · rw [handlerFunc_eq, handlerFunc_eq]
  · rw [handlerFunc_fresh]
  · rw [handlerFunc_fresh]

/-! ## Lemmas on the start-up sequence -/

theorem main_of_listen_error (p : List Byte) (os : World) (e : Error)
    (h : os.Listen "tcp" "localhost:8080" = .error e) :
    main p os =
      { trace := [Println banner, Effect.listen "tcp" "localhost:8080" (.error e)],
        outcome := .panicked e } := by
  simp [main, h]

theorem main_of_start_error (p : List Byte) (os : World) (l : Listener) (e : Error)
    (hl : os.Listen "tcp" "localhost:8080" = .ok l) (hs : os.Start (urlOpener os) = some e) :
    main p os =
      { trace := [Println banner, Effect.listen "tcp" "localhost:8080" (.ok l),
                  Effect.goServe { Handler := handlerFunc p } l,
                  Effect.start (urlOpener os) (some e)],
        outcome := .panicked e } := by
  simp [main, hl, hs]

theorem main_of_start_ok (p : List Byte) (os : World) (l : Listener)
    (hl : os.Listen "tcp" "localhost:8080" = .ok l) (hs : os.Start (urlOpener os) = none) :
    main p os =
      { trace := [Println banner, Effect.listen "tcp" "localhost:8080" (.ok l),
                  Effect.goServe { Handler := handlerFunc p } l,
                  Effect.start (urlOpener os) none],
        outcome := .parked } := by
  simp [main, hl, hs]

theorem main_of_listen_ok (p : List Byte) (os : World) (l : Listener)
    (hl : os.Listen "tcp" "localhost:8080" = .ok l) :
    (main p os).trace =
      [Println banner, Effect.listen "tcp" "localhost:8080" (.ok l),
       Effect.goServe { Handler := handlerFunc p } l,
       Effect.start (urlOpener os) (os.Start (urlOpener os))] := by
  cases hs : os.Start (urlOpener os) with
  | none => rw [main_of_start_ok p os l hl hs]
  | some e => rw [main_of_start_error p os l e hl hs]

theorem Command_args (lookPath : String → String × Option Error) (name : String)
    (arg : List String) : (Command lookPath name arg).args = name :: arg := by
  unfold Command
  cases isBareName name with
  | false => rfl
  | true =>
    cases h2 : (lookPath name).2 <;> by_cases h1 : (lookPath name).1 = "" <;> simp [h1, h2]

theorem urlOpener_args (os : World) :
    (urlOpener os).args =
      ["rundll32", "url.dll,FileProtocolHandler", "http://localhost:8080"] :=
  Command_args os.LookPath "rundll32" _

theorem url_of_address : "http://" ++ "localhost:8080" = "http://localhost:8080" := by decide

/-! ## The start-up sequence: claims C4 to C10 -/

/-- C4: when the bind fails with error `e`, `main` panics with exactly `e`;
the serve loop is not started and the URL-opener is not spawned; the trace of
the run is the banner print followed by the failed call of `net.Listen`, so
apart from that failed call the banner print is the only effect. -/
theorem main_bind_failure (p : List Byte) (os : World) (e : Error)
    (h : os.Listen "tcp" "localhost:8080" = .error e) :
    (main p os).outcome = .panicked e ∧
    (main p os).trace.countP Effect.isServe = 0 ∧
    (main p os).trace.countP Effect.isStart = 0 ∧
    (main p os).trace = [Println banner, Effect.listen "tcp" "localhost:8080" (.error e)] ∧
    (main p os).trace.filter (fun x => !x.isListen) = [Println banner] := by
  rw [main_of_listen_error p os e h]
  simp [List.countP_cons, List.filter_cons, Println, Effect.isServe, Effect.isStart,
    Effect.isListen]

theorem main_bind_failure_witness :
    (main samplePayload osPortTaken).outcome = .panicked ⟨"bind: address already in use"⟩ ∧
    (main samplePayload osPortTaken).trace.countP Effect.isServe = 0 ∧
    (main samplePayload osPortTaken).trace.countP Effect.isStart = 0 ∧
    (main samplePayload osPortTaken).trace =
      [Println banner,
       Effect.listen "tcp" "localhost:8080" (.error ⟨"bind: address already in use"⟩)] ∧
    (main samplePayload osPortTaken).trace.filter (fun x => !x.isListen) = [Println banner] :=
  main_bind_failure samplePayload osPortTaken ⟨"bind: address already in use"⟩ rfl

/-- C5: `main` panics with error `e` exactly when the bind fails with `e`, or
the bind succeeds and the spawn of the URL-opener fails with `e`; in
particular a failed spawn after a successful bind makes `main` panic with the
error of the spawn instead of parking, and there is no third way to abort. -/
theorem main_panics_iff (p : List Byte) (os : World) (e : Error) :
    (main p os).outcome = .panicked e ↔
      os.Listen "tcp" "localhost:8080" = .error e ∨
      ((∃ l, os.Listen "tcp" "localhost:8080" = .ok l) ∧ os.Start (urlOpener os) = some e) := by
  cases hl : os.Listen "tcp" "localhost:8080" with
  | error e1 =>
    rw [main_of_listen_error p os e1 hl]
    simp
  | ok l =>
    cases hs : os.Start (urlOpener os) with
    | none =>
      rw [main_of_start_ok p os l hl hs]
      simp
    | some e1 =>
      rw [main_of_start_error p os l e1 hl hs]
      simp

theorem main_panics_iff_witness :
    (main samplePayload osNoOpener).outcome = .panicked ⟨"executable file not found"⟩ :=
  (main_panics_iff samplePayload osNoOpener ⟨"executable file not found"⟩).mpr
    (Or.inr ⟨⟨⟨3⟩, rfl⟩, rfl⟩)

/-- C6: in every run the effects come in the fixed order banner, bind, start
of the serve loop, spawn of the URL-opener: the effect at position `i` of the
trace has rank `i`. The first effect is the banner print; a spawn is preceded
by a successful bind and by the start of the serve loop on the listener that
the bind returned; a serve loop runs on a listener returned by the bind. -/
theorem main_effect_order (p : List Byte) (os : World) :
    (main p os).trace.map Effect.rank = List.range (main p os).trace.length ∧
    (main p os).trace.head? = some (Println banner) ∧
    (∀ c err, Effect.start c err ∈ (main p os).trace →
      ∃ l, Effect.listen "tcp" "localhost:8080" (.ok l) ∈ (main p os).trace ∧
           Effect.goServe { Handler := handlerFunc p } l ∈ (main p os).trace) ∧
    (∀ s l, Effect.goServe s l ∈ (main p os).trace →
      Effect.listen "tcp" "localhost:8080" (.ok l) ∈ (main p os).trace) := by
  cases hl : os.Listen "tcp" "localhost:8080" with
  | error e =>
    rw [main_of_listen_error p os e hl]
    simp [Println, Effect.rank, List.range_succ]
  | ok l =>
    rw [main_of_listen_ok p os l hl]
    simp [Println, Effect.rank, List.range_succ]

theorem main_effect_order_witness :
    ∃ l, Effect.listen "tcp" "localhost:8080" (.ok l) ∈ (main samplePayload osAllFine).trace ∧
      Effect.goServe { Handler := handlerFunc samplePayload } l
        ∈ (main samplePayload osAllFine).trace :=
  (main_effect_order samplePayload osAllFine).2.2.1 (urlOpener osAllFine) none (by simp [main, osAllFine])

/-- C7: every run calls `net.Listen` exactly once, and that call asks for
network `tcp` at address `localhost:8080`; this holds in particular for a run
whose bind fails, where the one failed call is the last effect of the run. -/
theorem main_listen_once (p : List Byte) (os : World) :
    (main p os).trace.countP Effect.isListen = 1 ∧
    (∀ network address res, Effect.listen network address res ∈ (main p os).trace →
      network = "tcp" ∧ address = "localhost:8080" ∧
      res = os.Listen "tcp" "localhost:8080") ∧
    (∀ e, os.Listen "tcp" "localhost:8080" = .error e →
      (main p os).trace.getLast? = some (Effect.listen "tcp" "localhost:8080" (.error e))) := by
  cases hl : os.Listen "tcp" "localhost:8080" with
  | error e =>
    rw [main_of_listen_error p os e hl]
    simp [List.countP_cons, Println, Effect.isListen]
  | ok l =>
    rw [main_of_listen_ok p os l hl]
    simp [List.countP_cons, Println, Effect.isListen]

theorem main_listen_once_witness :
    (main samplePayload osPortTaken).trace.getLast? =
      some (Effect.listen "tcp" "localhost:8080" (.error ⟨"bind: address already in use"⟩)) :=
  (main_listen_once samplePayload osPortTaken).2.2 ⟨"bind: address already in use"⟩ rfl

/-- C8: in every run in which the bind succeeds, `Start` is called exactly
once, on the command that `exec.Command` builds for
`rundll32 url.dll,FileProtocolHandler http://localhost:8080`: its argument
vector is these three words, its last argument is `http://` followed by the
address of the listener, and `Wait` is never called on it. -/
theorem main_opener_once (p : List Byte) (os : World) (l : Listener)
    (hl : os.Listen "tcp" "localhost:8080" = .ok l) :
    (main p os).trace.countP Effect.isStart = 1 ∧
    (main p os).trace.countP Effect.isWait = 0 ∧
    Effect.start (urlOpener os) (os.Start (urlOpener os)) ∈ (main p os).trace ∧
    (∀ c err, Effect.start c err ∈ (main p os).trace →
      c.args = ["rundll32", "url.dll,FileProtocolHandler", "http://localhost:8080"]) ∧
    (∀ c err network address res, Effect.start c err ∈ (main p os).trace →
      Effect.listen network address res ∈ (main p os).trace →
      c.args.getLast? = some ("http://" ++ address)) := by
  rw [main_of_listen_ok p os l hl]
  refine ⟨?_, ?_, ?_, ?_, ?_⟩
  · simp [List.countP_cons, Println, Effect.isStart]
  · simp [List.countP_cons, Println, Effect.isWait]
  · simp
  · intro c err hc
    simp [Println] at hc
    rw [hc.1]
    exact urlOpener_args os
  · intro c err network address res hc ha
    simp [Println] at hc ha
    rw [hc.1, ha.2.1, url_of_address, urlOpener_args os]
    rfl

theorem main_opener_once_witness :
    (main samplePayload osAllFine).trace.countP Effect.isStart = 1 ∧
    (main samplePayload osAllFine).trace.countP Effect.isWait = 0 ∧
    Effect.start (urlOpener osAllFine) (osAllFine.Start (urlOpener osAllFine))
      ∈ (main samplePayload osAllFine).trace ∧
    (∀ c err, Effect.start c err ∈ (main samplePayload osAllFine).trace →
      c.args = ["rundll32", "url.dll,FileProtocolHandler", "http://localhost:8080"]) ∧
    (∀ c err network address res, Effect.start c err ∈ (main samplePayload osAllFine).trace →
      Effect.listen network address res ∈ (main samplePayload osAllFine).trace →
      c.args.getLast? = some ("http://" ++ address)) :=
  main_opener_once samplePayload osAllFine ⟨3⟩ rfl

/-- C9: in every run in which the bind and the spawn both succeed, `main`
ends parked: it does not return and it does not panic, and the program itself
produces no exit status. In no run at all does `main` return or the program
produce exit status 0. -/
theorem main_parks (p : List Byte) (os : World) (l : Listener)
    (hl : os.Listen "tcp" "localhost:8080" = .ok l) (hs : os.Start (urlOpener os) = none) :
    (main p os).outcome = .parked ∧
    (main p os).outcome.exitCode = none ∧
    (∀ os1 : World, (main p os1).outcome ≠ .returned ∧
      (main p os1).outcome.exitCode ≠ some 0) := by
  refine ⟨?_, ?_, ?_⟩
  · rw [main_of_start_ok p os l hl hs]
  · rw [main_of_start_ok p os l hl hs]
    rfl
  · intro os1
    cases h1 : os1.Listen "tcp" "localhost:8080" with
    | error e =>
      rw [main_of_listen_error p os1 e h1]
      simp [Outcome.exitCode]
    | ok l1 =>
      cases h2 : os1.Start (urlOpener os1) with
      | none =>
        rw [main_of_start_ok p os1 l1 h1 h2]
        simp [Outcome.exitCode]
      | some e =>
        rw [main_of_start_error p os1 l1 e h1 h2]
        simp [Outcome.exitCode]

theorem main_parks_witness :
    (main samplePayload osAllFine).outcome = .parked ∧
    (main samplePayload osAllFine).outcome.exitCode = none ∧
    (∀ os1 : World, (main samplePayload os1).outcome ≠ .returned ∧
      (main samplePayload os1).outcome.exitCode ≠ some 0) :=
  main_parks samplePayload osAllFine ⟨3⟩ rfl rfl

/-- C10, as stated, fails: with a bound listener and a URL-opener that is
spawned successfully and then exits with status 1, `main` parks and does not
exit fatally. -/
theorem main_opener_exit_status_not_fatal :
    osOpenerExitsOne.Listen "tcp" "localhost:8080" = .ok ⟨3⟩ ∧
    osOpenerExitsOne.Start (urlOpener osOpenerExitsOne) = none ∧
    osOpenerExitsOne.childExit (urlOpener osOpenerExitsOne) = 1 ∧
    (main samplePayload osOpenerExitsOne).outcome = .parked ∧
    (main samplePayload osOpenerExitsOne).outcome.isFatal = false :=
  ⟨rfl, rfl, rfl, rfl, rfl⟩

/-- C10, amended: when the listener is bound and the URL-opener is spawned
successfully, `main` parks and does not exit fatally, whatever status the
spawned command exits with later; the run does not depend on that status at
all. With a bound listener the run is fatal exactly when the spawn fails. -/
theorem main_ignores_opener_exit_status (p : List Byte) (os : World) (l : Listener)
    (hl : os.Listen "tcp" "localhost:8080" = .ok l) :
    (os.Start (urlOpener os) = none →
      (main p os).outcome = .parked ∧ (main p os).outcome.isFatal = false) ∧
    (∀ status : Cmd → Nat,
      main p { Listen := os.Listen, LookPath := os.LookPath, Start := os.Start,
               childExit := status } = main p os) ∧
    ((main p os).outcome.isFatal = true ↔ ∃ e, os.Start (urlOpener os) = some e) := by
  refine ⟨?_, ?_, ?_⟩
  · intro hs
    rw [main_of_start_ok p os l hl hs]
    exact ⟨rfl, rfl⟩
  · intro status
    rfl
  · cases hs : os.Start (urlOpener os) with
    | none =>
      rw [main_of_start_ok p os l hl hs]
      simp [Outcome.isFatal]
    | some e =>
      rw [main_of_start_error p os l e hl hs]
      simp [Outcome.isFatal]

theorem main_ignores_opener_exit_status_witness :
    (main samplePayload osOpenerExitsOne).outcome = .parked ∧
    (main samplePayload osOpenerExitsOne).outcome.isFatal = false :=
  (main_ignores_opener_exit_status samplePayload osOpenerExitsOne ⟨3⟩ rfl).1 rfl

end TitleQuest
